import Mathlib

/-!
Shallow embedding of `src/NoClip.js` (RAGE-MP Advanced NoClip).

Numbers: the JavaScript doubles are modelled as exact rationals (`ℚ`);
the configuration constants (2.0, 8.0, 1.025, …) are exact rationals, so
every arithmetic step of the source is mirrored exactly.

External world (the `mp.*` RAGE runtime) is modelled by a `World` record
read by each call, and entity mutations (`freezePosition`, `setCollision`,
`getGroundZFor3dCoord`, `setCoordsNoOffset`) are recorded as an explicit
list of `Effect`s returned next to the new controller state.
-/

set_option autoImplicit false

namespace NoClip

/-- A 3-component vector of exact rationals, modelling the JS `{x, y, z}`
position/direction objects. -/
structure Vec3 where
  x : ℚ
  y : ℚ
  z : ℚ
deriving DecidableEq

/-- The two world objects the controller can reference: `mp.players.local`
and `mp.players.local.vehicle`. -/
inductive Entity where
  | player : Entity
  | vehicle : Entity
deriving DecidableEq

/-- One observable call into the RAGE runtime that mutates or queries the
world, in source order. -/
inductive Effect where
  | freezePosition : Entity → Bool → Effect
  | setCollision : Entity → Bool → Bool → Effect
  | getGroundZ : ℚ → ℚ → ℚ → Effect
  | setCoordsNoOffset : Entity → ℚ → ℚ → ℚ → Effect
deriving DecidableEq

/-- `true` on ground-height queries (`mp.game.gameplay.getGroundZFor3dCoord`). -/
def Effect.isGroundQuery : Effect → Bool
  | .getGroundZ _ _ _ => true
  | _ => false

/-- `true` on position writes (`setCoordsNoOffset`). -/
def Effect.isPositionWrite : Effect → Bool
  | .setCoordsNoOffset _ _ _ _ => true
  | _ => false

/-- The surrounding RAGE runtime as observed during one call:
`localPlayer` models `mp.players.local` (possibly null), `vehicleHandle`
models `mp.players.local.vehicle` (`none` = null, `some h` = vehicle with
handle `h`), `cameraOk` tells whether `mp.cameras.new` returns a camera,
`playerPos`/`vehiclePos` are the entities' current positions, `cameraDir`
is `camera.getDirection()`, `groundZ` is what
`getGroundZFor3dCoord` returns, and `now` is `Date.now()`. -/
structure World where
  localPlayer : Option Entity
  vehicleHandle : Option Nat
  cameraOk : Bool
  playerPos : Vec3
  vehiclePos : Vec3
  cameraDir : Vec3
  groundZ : ℚ
  now : Int

/-- `this.config` from the constructor (lines 9-20). -/
structure Config where
  baseSpeed : ℚ
  maxSpeed : ℚ
  acceleration : ℚ
  fastAcceleration : ℚ
  tickRate : Int
  speedSlow : ℚ
  speedNormal : ℚ
  speedFast : ℚ

/-- The concrete configuration values of the constructor:
baseSpeed 2.0, maxSpeed 8.0, acceleration 1.025 = 41/40,
fastAcceleration 1.05 = 21/20, tickRate 0, speeds 0.02 / 0.2 / 1.0. -/
def config : Config :=
  { baseSpeed := 2
    maxSpeed := 8
    acceleration := 41 / 40
    fastAcceleration := 21 / 20
    tickRate := 0
    speedSlow := 1 / 50
    speedNormal := 1 / 5
    speedFast := 1 }

/-- `this.state`: per-axis speeds plus `lastUpdate` (lines 22-27). -/
structure MovementState where
  forward : ℚ
  strafe : ℚ
  vertical : ℚ
  lastUpdate : Int
deriving DecidableEq

/-- Mutable fields of the `NoClipSystem` object: `isActive`, `state`,
`camera` (opaque handle, `none` = null) and `targetEntity`. -/
structure NoClipState where
  isActive : Bool
  state : MovementState
  camera : Option Unit
  targetEntity : Option Entity
deriving DecidableEq

/-- The state right after the constructor ran at time `t0`
(`lastUpdate: Date.now()`; speeds initialised to 2.0). -/
def initState (t0 : Int) : NoClipState :=
  { isActive := false
    state := { forward := 2, strafe := 2, vertical := 2, lastUpdate := t0 }
    camera := none
    targetEntity := none }

/-- Which movement controls are currently held
(`mp.game.controls.isControlPressed` for each binding). -/
structure Inputs where
  forward : Bool
  backward : Bool
  left : Bool
  right : Bool
  up : Bool
  down : Bool
  fast : Bool
  slow : Bool
deriving DecidableEq

/-- `isPlayerInVehicle` (lines 283-286): vehicle reference non-null and
handle nonzero. -/
def isPlayerInVehicle (w : World) : Bool :=
  match w.vehicleHandle with
  | none => false
  | some h => h != 0

/-- `getTargetEntity` (lines 273-278): the vehicle when occupied, else
`mp.players.local` (which the runtime could in principle hand back null). -/
def getTargetEntity (w : World) : Option Entity :=
  if isPlayerInVehicle w then some Entity.vehicle else w.localPlayer

/-- `getCurrentSpeed` (lines 159-169): fast wins over slow, default normal. -/
def getCurrentSpeed (inp : Inputs) : ℚ :=
  if inp.fast then config.speedFast
  else if inp.slow then config.speedSlow
  else config.speedNormal

/-- `accelerateAxis` (lines 249-253) acting on one axis speed: multiply by
the acceleration factor only while strictly below `maxSpeed` — note the
source has no `min` clamp, so one step may overshoot `maxSpeed`. -/
def accelerateAxis (s : ℚ) : ℚ :=
  if s < config.maxSpeed then s * config.acceleration else s

/-- `handleForwardMovement` (lines 183-201): returns the updated position
and the updated `state.forward`. Acceleration happens before the
displacement is computed. -/
def handleForwardMovement (inp : Inputs) (position direction : Vec3)
    (speed : ℚ) (fwd : ℚ) : Vec3 × ℚ :=
  if inp.forward then
    let fwd := accelerateAxis fwd
    let movement := fwd * speed
    ({ x := position.x + direction.x * movement
       y := position.y + direction.y * movement
       z := position.z + direction.z * movement }, fwd)
  else if inp.backward then
    let fwd := accelerateAxis fwd
    let movement := fwd * speed
    ({ x := position.x - direction.x * movement
       y := position.y - direction.y * movement
       z := position.z - direction.z * movement }, fwd)
  else
    (position, config.baseSpeed)

/-- `handleStrafeMovement` (lines 206-227): strafe basis `(-dy, dx)`,
x/y only. -/
def handleStrafeMovement (inp : Inputs) (position direction : Vec3)
    (speed : ℚ) (strafe : ℚ) : Vec3 × ℚ :=
  let strafeDirection : ℚ × ℚ := (-direction.y, direction.x)
  if inp.left then
    let strafe := accelerateAxis strafe
    let movement := strafe * speed
    ({ position with
       x := position.x + strafeDirection.1 * movement
       y := position.y + strafeDirection.2 * movement }, strafe)
  else if inp.right then
    let strafe := accelerateAxis strafe
    let movement := strafe * speed
    ({ position with
       x := position.x - strafeDirection.1 * movement
       y := position.y - strafeDirection.2 * movement }, strafe)
  else
    (position, config.baseSpeed)

/-- `handleVerticalMovement` (lines 232-244): world-vertical only. -/
def handleVerticalMovement (inp : Inputs) (position : Vec3)
    (speed : ℚ) (vertical : ℚ) : Vec3 × ℚ :=
  if inp.up then
    let vertical := accelerateAxis vertical
    ({ position with z := position.z + vertical * speed }, vertical)
  else if inp.down then
    let vertical := accelerateAxis vertical
    ({ position with z := position.z - vertical * speed }, vertical)
  else
    (position, config.baseSpeed)

/-- `handleMovement` (lines 174-178): the three handlers in source order,
threading the position. -/
def handleMovement (inp : Inputs) (position direction : Vec3) (speed : ℚ)
    (ms : MovementState) : Vec3 × MovementState :=
  let rf := handleForwardMovement inp position direction speed ms.forward
  let rs := handleStrafeMovement inp rf.1 direction speed ms.strafe
  let rv := handleVerticalMovement inp rs.1 speed ms.vertical
  (rv.1, { ms with forward := rf.2, strafe := rs.2, vertical := rv.2 })

/-- `resetState` (lines 291-295). -/
def resetState (ms : MovementState) : MovementState :=
  { ms with
    forward := config.baseSpeed
    strafe := config.baseSpeed
    vertical := config.baseSpeed }

/-- `setEntityToGround` (lines 300-311): guard on a null entity, then one
ground query at the entity's position and one write keeping x/y. (The
`entity.position` null-check always passes in this model: positions are
total.) -/
def setEntityToGround (w : World) (entity : Option Entity) : List Effect :=
  match entity with
  | none => []
  | some e =>
    let position := match e with
      | Entity.player => w.playerPos
      | Entity.vehicle => w.vehiclePos
    [Effect.getGroundZ position.x position.y position.z,
     Effect.setCoordsNoOffset e position.x position.y w.groundZ]

/-- `enable` (lines 91-109): resolve target, acquire camera; on camera
failure force `isActive := false` and return (note `targetEntity` is NOT
cleared); otherwise freeze and un-collide the vehicle (when occupied) or
the local player. -/
def enable (w : World) (st : NoClipState) : NoClipState × List Effect :=
  let st := { st with
    targetEntity := getTargetEntity w
    camera := if w.cameraOk then some () else none }
  if st.camera.isNone then
    ({ st with isActive := false }, [])
  else
    match st.targetEntity with
    | some tgt =>
      if isPlayerInVehicle w then
        (st, [Effect.freezePosition tgt true, Effect.setCollision tgt false false])
      else
        (st, [Effect.freezePosition Entity.player true,
              Effect.setCollision Entity.player false false])
    | none => (st, [])

/-- `disable` (lines 114-130): undo freeze/collision on the recorded
target (branching on CURRENT vehicle occupancy), ground-snap the local
player in the on-foot branch, then reset movement state and clear
`targetEntity` and `camera`. -/
def disable (w : World) (st : NoClipState) : NoClipState × List Effect :=
  let effects : List Effect :=
    match st.targetEntity with
    | some tgt =>
      if isPlayerInVehicle w then
        [Effect.freezePosition tgt false, Effect.setCollision tgt true true]
      else
        [Effect.freezePosition Entity.player false,
         Effect.setCollision Entity.player true true]
          ++ setEntityToGround w w.localPlayer
    | none => []
  ({ st with
     state := resetState st.state
     targetEntity := none
     camera := none }, effects)

/-- `toggle` (lines 78-86): flip `isActive`, then `enable` or `disable`. -/
def toggle (w : World) (st : NoClipState) : NoClipState × List Effect :=
  let st := { st with isActive := !st.isActive }
  if st.isActive then enable w st else disable w st

/-- `destroy` (lines 332-336): run `disable` when active — without
touching `isActive`. -/
def destroy (w : World) (st : NoClipState) : NoClipState × List Effect :=
  if st.isActive then disable w st else (st, [])

/-- `shouldUpdate` (lines 135-140). -/
def shouldUpdate (w : World) (st : NoClipState) : Bool :=
  st.isActive && st.camera.isSome && st.targetEntity.isSome &&
    (w.now - st.state.lastUpdate > config.tickRate)

/-- `updateEntityPosition` (lines 258-268): write through the vehicle when
occupied, else through the local player. -/
def updateEntityPosition (w : World) (st : NoClipState) (position : Vec3) :
    List Effect :=
  if isPlayerInVehicle w then
    match st.targetEntity with
    | some tgt => [Effect.setCoordsNoOffset tgt position.x position.y position.z]
    | none => []
  else
    [Effect.setCoordsNoOffset Entity.player position.x position.y position.z]

/-- `update` (lines 145-154): read speed multiplier, camera direction and
the target's position; move; write back; stamp `lastUpdate`. -/
def update (w : World) (inp : Inputs) (st : NoClipState) :
    NoClipState × List Effect :=
  let currentSpeed := getCurrentSpeed inp
  let direction := w.cameraDir
  let position := match st.targetEntity with
    | some Entity.vehicle => w.vehiclePos
    | _ => w.playerPos
  let r := handleMovement inp position direction currentSpeed st.state
  ({ st with state := { r.2 with lastUpdate := w.now } },
   updateEntityPosition w st r.1)

/-- The render handler body (lines 67-73): `update` only when
`shouldUpdate`. -/
def renderTick (w : World) (inp : Inputs) (st : NoClipState) :
    NoClipState × List Effect :=
  if shouldUpdate w st then update w inp st else (st, [])

/-- One externally-triggered transition of the controller: a toggle
key-press, a render frame, or a destroy call, each under some runtime
environment. -/
inductive Step : NoClipState → NoClipState → Prop where
  | ofToggle (w : World) (st : NoClipState) : Step st (toggle w st).1
  | ofRender (w : World) (inp : Inputs) (st : NoClipState) :
      Step st (renderTick w inp st).1
  | ofDestroy (w : World) (st : NoClipState) : Step st (destroy w st).1

/-- States reachable from the constructor state by any call sequence. -/
def Reachable (s : NoClipState) : Prop :=
  ∃ t0 : Int, Relation.ReflTransGen Step (initState t0) s

/-- Only the W key held. -/
def holdForward : Inputs :=
  { forward := true, backward := false, left := false, right := false
    up := false, down := false, fast := false, slow := false }

/-- Only the A key held. -/
def holdLeft : Inputs :=
  { forward := false, backward := false, left := true, right := false
    up := false, down := false, fast := false, slow := false }

/-- Only the space key held. -/
def holdUp : Inputs :=
  { forward := false, backward := false, left := false, right := false
    up := true, down := false, fast := false, slow := false }

/-- No movement key held. -/
def noInput : Inputs :=
  { forward := false, backward := false, left := false, right := false
    up := false, down := false, fast := false, slow := false }

/-- A benign runtime: local player on foot, camera creation succeeds. -/
def baseW : World :=
  { localPlayer := some Entity.player
    vehicleHandle := none
    cameraOk := true
    playerPos := ⟨0, 0, 0⟩
    vehiclePos := ⟨0, 0, 0⟩
    cameraDir := ⟨0, 0, 0⟩
    groundZ := 0
    now := 0 }

/-- Same runtime but `mp.cameras.new` fails. -/
def wFail : World := { baseW with cameraOk := false }

/-- Same runtime but `mp.players.local` is null (defensive-handling case). -/
def wNull : World := { baseW with localPlayer := none }

/-- Same runtime but the player occupies a vehicle with handle 1. -/
def wVeh : World := { baseW with vehicleHandle := some 1 }

/-- An active on-foot session state (what a successful `toggle`-on from
the constructor state produces). -/
def stP : NoClipState :=
  { initState 0 with
    isActive := true, camera := some (), targetEntity := some Entity.player }

/-- An active in-vehicle session state. -/
def stV : NoClipState :=
  { initState 0 with
    isActive := true, camera := some (), targetEntity := some Entity.vehicle }

/-- `state.forward` after holding W for `n` consecutive executed ticks,
starting from base speed: iterates the real `handleForwardMovement`. -/
def forwardHeldSpeed : Nat → ℚ
  | 0 => config.baseSpeed
  | n + 1 =>
    (handleForwardMovement holdForward baseW.playerPos baseW.cameraDir
      (getCurrentSpeed holdForward) (forwardHeldSpeed n)).2

/-- `state.strafe` after holding A for `n` consecutive executed ticks. -/
def strafeHeldSpeed : Nat → ℚ
  | 0 => config.baseSpeed
  | n + 1 =>
    (handleStrafeMovement holdLeft baseW.playerPos baseW.cameraDir
      (getCurrentSpeed holdLeft) (strafeHeldSpeed n)).2

/-- `state.vertical` after holding space for `n` consecutive executed ticks. -/
def verticalHeldSpeed : Nat → ℚ
  | 0 => config.baseSpeed
  | n + 1 =>
    (handleVerticalMovement holdUp baseW.playerPos
      (getCurrentSpeed holdUp) (verticalHeldSpeed n)).2

/-- The runtime at frame `n` of the held-forward run (clock advances one
millisecond per frame, so the `tickRate = 0` throttle always passes). -/
def tickW (n : Nat) : World := { baseW with now := (n : Int) }

/-- The full-system run: toggle on at time 0, then `n` render frames with
W held, one per millisecond. -/
def runForward : Nat → NoClipState
  | 0 => (toggle baseW (initState 0)).1
  | n + 1 => (renderTick (tickW (n + 1)) holdForward (runForward n)).1

/-- Closed description of the state after `n` frames of the held-forward
run. -/
def activeForwardState (n : Nat) : NoClipState :=
  { isActive := true
    state := { forward := forwardHeldSpeed n, strafe := 2, vertical := 2
               lastUpdate := (n : Int) }
    camera := some ()
    targetEntity := some Entity.player }

/-- The per-axis speed range the implementation actually maintains:
at least `baseSpeed`, strictly below `maxSpeed * accelerationFactor`
(one un-clamped acceleration step past the ceiling). -/
def AxisInv (q : ℚ) : Prop :=
  config.baseSpeed ≤ q ∧ q < config.maxSpeed * config.acceleration

/-- All three axis speeds lie in the maintained range. -/
def SpeedsInv (s : NoClipState) : Prop :=
  AxisInv s.state.forward ∧ AxisInv s.state.strafe ∧ AxisInv s.state.vertical

/-- The controller state as `toggle` hands it to `enable`: flag already
flipped on. -/
def stT : NoClipState := { initState 0 with isActive := true }

/-- The state a toggle-on under a failing camera leaves behind. -/
def s5 : NoClipState := (toggle wFail (initState 0)).1

/-! ### Structural lemmas about the state transitions -/

theorem disable_fst (w : World) (st : NoClipState) :
    (disable w st).1 =
      { st with state := resetState st.state, targetEntity := none, camera := none } :=
  rfl

theorem enable_fst (w : World) (st : NoClipState) :
    (enable w st).1 =
      { st with
        targetEntity := getTargetEntity w
        camera := if w.cameraOk then some () else none
        isActive := st.isActive && w.cameraOk } := by
  cases hw : w.cameraOk
  · simp [enable, hw]
  · cases ht : getTargetEntity w
    · simp [enable, hw, ht]
    · cases hv : isPlayerInVehicle w <;> simp [enable, hw, ht, hv]

theorem renderTick_isActive (w : World) (inp : Inputs) (st : NoClipState) :
    (renderTick w inp st).1.isActive = st.isActive := by
  unfold renderTick update
  split <;> rfl

theorem renderTick_camera (w : World) (inp : Inputs) (st : NoClipState) :
    (renderTick w inp st).1.camera = st.camera := by
  unfold renderTick update
  split <;> rfl

theorem renderTick_target (w : World) (inp : Inputs) (st : NoClipState) :
    (renderTick w inp st).1.targetEntity = st.targetEntity := by
  unfold renderTick update
  split <;> rfl

theorem handleMovement_forward (inp : Inputs) (p d : Vec3) (sp : ℚ)
    (ms : MovementState) :
    (handleMovement inp p d sp ms).2.forward =
      if inp.forward || inp.backward then accelerateAxis ms.forward
      else config.baseSpeed := by
  cases hf : inp.forward <;> cases hb : inp.backward <;>
    simp [handleMovement, handleForwardMovement, hf, hb]

theorem handleMovement_strafe (inp : Inputs) (p d : Vec3) (sp : ℚ)
    (ms : MovementState) :
    (handleMovement inp p d sp ms).2.strafe =
      if inp.left || inp.right then accelerateAxis ms.strafe
      else config.baseSpeed := by
  cases hl : inp.left <;> cases hr : inp.right <;>
    simp [handleMovement, handleStrafeMovement, hl, hr]

theorem handleMovement_vertical (inp : Inputs) (p d : Vec3) (sp : ℚ)
    (ms : MovementState) :
    (handleMovement inp p d sp ms).2.vertical =
      if inp.up || inp.down then accelerateAxis ms.vertical
      else config.baseSpeed := by
  cases hu : inp.up <;> cases hd : inp.down <;>
    simp [handleMovement, handleVerticalMovement, hu, hd]

theorem update_forward (w : World) (inp : Inputs) (st : NoClipState) :
    (update w inp st).1.state.forward =
      if inp.forward || inp.backward then accelerateAxis st.state.forward
      else config.baseSpeed := by
  simp [update, handleMovement_forward]

theorem update_strafe (w : World) (inp : Inputs) (st : NoClipState) :
    (update w inp st).1.state.strafe =
      if inp.left || inp.right then accelerateAxis st.state.strafe
      else config.baseSpeed := by
  simp [update, handleMovement_strafe]

theorem update_vertical (w : World) (inp : Inputs) (st : NoClipState) :
    (update w inp st).1.state.vertical =
      if inp.up || inp.down then accelerateAxis st.state.vertical
      else config.baseSpeed := by
  simp [update, handleMovement_vertical]

/-! ### The axis-speed range the code maintains -/

theorem axisInv_base : AxisInv config.baseSpeed := by
  norm_num [AxisInv, config]

theorem axisInv_accel {q : ℚ} (h : AxisInv q) : AxisInv (accelerateAxis q) := by
  obtain ⟨h1, h2⟩ := h
  unfold accelerateAxis
  split
  case isTrue hlt =>
    refine ⟨le_trans h1 (le_mul_of_one_le_right ?_ ?_), ?_⟩
    · exact le_trans (by norm_num [config]) h1
    · norm_num [config]
    · exact mul_lt_mul_of_pos_right hlt (by norm_num [config])
  case isFalse => exact ⟨h1, h2⟩

theorem speedsInv_update {s : NoClipState} (w : World) (inp : Inputs)
    (h : SpeedsInv s) : SpeedsInv (update w inp s).1 := by
  obtain ⟨h1, h2, h3⟩ := h
  refine ⟨?_, ?_, ?_⟩
  · rw [update_forward]; split
    · exact axisInv_accel h1
    · exact axisInv_base
  · rw [update_strafe]; split
    · exact axisInv_accel h2
    · exact axisInv_base
  · rw [update_vertical]; split
    · exact axisInv_accel h3
    · exact axisInv_base

theorem speedsInv_reset (s : NoClipState) (cam : Option Unit)
    (tgt : Option Entity) :
    SpeedsInv { s with state := resetState s.state, targetEntity := tgt, camera := cam } :=
  ⟨axisInv_base, axisInv_base, axisInv_base⟩

theorem speedsInv_step {s s2 : NoClipState} (h : SpeedsInv s) (hs : Step s s2) :
    SpeedsInv s2 := by
  cases hs with
  | ofToggle w st =>
    by_cases ha : s.isActive
    · have he : (toggle w s).1 = (disable w { s with isActive := !s.isActive }).1 := by
        simp [toggle, ha]
      rw [he, disable_fst]
      exact speedsInv_reset _ _ _
    · have he : (toggle w s).1 = (enable w { s with isActive := !s.isActive }).1 := by
        simp [toggle, ha]
      rw [he, enable_fst]
      exact h
  | ofRender w inp st =>
    unfold renderTick
    split
    · exact speedsInv_update w inp h
    · exact h
  | ofDestroy w st =>
    by_cases ha : s.isActive
    · have he : (destroy w s).1 = (disable w s).1 := by simp [destroy, ha]
      rw [he, disable_fst]
      exact speedsInv_reset _ _ _
    · have he : (destroy w s).1 = s := by simp [destroy, ha]
      rw [he]
      exact h

theorem speedsInv_reachable {s : NoClipState} (h : Reachable s) : SpeedsInv s := by
  obtain ⟨t0, hr⟩ := h
  induction hr with
  | refl => exact ⟨axisInv_base, axisInv_base, axisInv_base⟩
  | tail hab hbc ih => exact speedsInv_step ih hbc

/-! ### Closed form of a held axis speed -/

theorem forwardHeldSpeed_succ (n : Nat) :
    forwardHeldSpeed (n + 1) = accelerateAxis (forwardHeldSpeed n) := by
  simp [forwardHeldSpeed, handleForwardMovement, holdForward]

theorem strafeHeldSpeed_succ (n : Nat) :
    strafeHeldSpeed (n + 1) = accelerateAxis (strafeHeldSpeed n) := by
  simp [strafeHeldSpeed, handleStrafeMovement, holdLeft]

theorem verticalHeldSpeed_succ (n : Nat) :
    verticalHeldSpeed (n + 1) = accelerateAxis (verticalHeldSpeed n) := by
  simp [verticalHeldSpeed, handleVerticalMovement, holdUp]

theorem basePow_lt_max {n : Nat} (hn : n ≤ 56) :
    (2 : ℚ) * (41 / 40) ^ n < 8 := by
  have h1 : ((41 : ℚ) / 40) ^ n ≤ (41 / 40) ^ 56 :=
    pow_le_pow_right₀ (by norm_num) hn
  have h2 : (2 : ℚ) * (41 / 40) ^ 56 < 8 := by norm_num
  have h3 : (2 : ℚ) * (41 / 40) ^ n ≤ 2 * (41 / 40) ^ 56 := by linarith
  exact lt_of_le_of_lt h3 h2

theorem basePow57_ge : (8 : ℚ) ≤ 2 * (41 / 40) ^ 57 := by norm_num

theorem heldSpeed_closed (f : Nat → ℚ) (h0 : f 0 = config.baseSpeed)
    (hstep : ∀ n, f (n + 1) = accelerateAxis (f n)) (n : Nat) :
    f n = 2 * (41 / 40 : ℚ) ^ min n 57 := by
  induction n with
  | zero => simpa [config] using h0
  | succ n ih =>
    rcases le_or_lt (n + 1) 57 with hle | hgt
    · have hn56 : n ≤ 56 := by omega
      have hm1 : min n 57 = n := by omega
      have hm2 : min (n + 1) 57 = n + 1 := by omega
      rw [hstep, ih, hm1, hm2]
      unfold accelerateAxis
      rw [if_pos (show (2 : ℚ) * (41 / 40) ^ n < config.maxSpeed by
        simpa [config] using basePow_lt_max hn56)]
      rw [pow_succ]
      simp [config]
      ring
    · have hm1 : min n 57 = 57 := by omega
      have hm2 : min (n + 1) 57 = 57 := by omega
      rw [hstep, ih, hm1, hm2]
      unfold accelerateAxis
      rw [if_neg (show ¬ (2 : ℚ) * (41 / 40) ^ 57 < config.maxSpeed by
        simpa [config] using not_lt.mpr basePow57_ge)]

theorem forwardHeldSpeed_closed (n : Nat) :
    forwardHeldSpeed n = 2 * (41 / 40 : ℚ) ^ min n 57 :=
  heldSpeed_closed forwardHeldSpeed rfl forwardHeldSpeed_succ n

theorem strafeHeldSpeed_closed (n : Nat) :
    strafeHeldSpeed n = 2 * (41 / 40 : ℚ) ^ min n 57 :=
  heldSpeed_closed strafeHeldSpeed rfl strafeHeldSpeed_succ n

theorem verticalHeldSpeed_closed (n : Nat) :
    verticalHeldSpeed n = 2 * (41 / 40 : ℚ) ^ min n 57 :=
  heldSpeed_closed verticalHeldSpeed rfl verticalHeldSpeed_succ n

/-! ### The concrete held-forward run of the full system -/

theorem runForward_eq (n : Nat) : runForward n = activeForwardState n := by
  induction n with
  | zero =>
    show (toggle baseW (initState 0)).1 = activeForwardState 0
    simp [toggle, enable, getTargetEntity, isPlayerInVehicle, baseW, initState,
      activeForwardState, forwardHeldSpeed, config]
  | succ n ih =>
    have hs : shouldUpdate (tickW (n + 1)) (activeForwardState n) = true := by
      simp [shouldUpdate, activeForwardState, tickW, baseW, config]
    show (renderTick (tickW (n + 1)) holdForward (runForward n)).1 = _
    rw [ih]
    rw [show renderTick (tickW (n + 1)) holdForward (activeForwardState n) =
        update (tickW (n + 1)) holdForward (activeForwardState n) from by
      simp [renderTick, hs]]
    simp [update, activeForwardState, tickW, baseW, holdForward, getCurrentSpeed,
      handleMovement, handleForwardMovement, handleStrafeMovement,
      handleVerticalMovement, forwardHeldSpeed, config]

theorem activeForwardState_isActive (n : Nat) :
    (activeForwardState n).isActive = true := rfl

theorem activeForwardState_forward (n : Nat) :
    (activeForwardState n).state.forward = forwardHeldSpeed n := rfl

theorem runForward_reachable (n : Nat) :
    Relation.ReflTransGen Step (initState 0) (runForward n) := by
  induction n with
  | zero => exact Relation.ReflTransGen.single (Step.ofToggle baseW (initState 0))
  | succ n ih =>
    exact ih.tail (Step.ofRender (tickW (n + 1)) holdForward (runForward n))

/-! ### Claim C1 -/

/-- Claim C1, counterexample: the claim says every axis speed stays within
[baseSpeed, maxSpeed] after every tick while active. It is false: toggling
on and then holding W for 57 executed ticks reaches a still-active state
whose forward axis speed `2 * 1.025 ^ 57 ≈ 8.17` strictly exceeds
`maxSpeed = 8`, because `accelerateAxis` has no `min` clamp. -/
theorem c1_counterexample :
    Reachable (runForward 57) ∧ (runForward 57).isActive = true ∧
      config.maxSpeed < (runForward 57).state.forward := by
  refine ⟨⟨0, runForward_reachable 57⟩, ?_, ?_⟩
  · rw [runForward_eq, activeForwardState_isActive]
  · rw [runForward_eq, activeForwardState_forward, forwardHeldSpeed_closed]
    norm_num [config]

/-- Claim C1, amended: in every reachable state (any number of ticks with
any input sequence, interleaved with toggles and destroys), every axis
speed lies in `[baseSpeed, maxSpeed * accelerationFactor)` — the driven
update multiplies once past the ceiling before saturating, so the true
upper bound is `maxSpeed * accelerationFactor` (exclusive), not
`maxSpeed`. -/
theorem c1_speed_bound_amended (s : NoClipState) (h : Reachable s) :
    AxisInv s.state.forward ∧ AxisInv s.state.strafe ∧ AxisInv s.state.vertical :=
  speedsInv_reachable h

/-- Claim C1, witness: the amended bound instantiated at the constructor
state. -/
theorem c1_witness :
    AxisInv (initState 0).state.forward ∧ AxisInv (initState 0).state.strafe ∧
      AxisInv (initState 0).state.vertical :=
  c1_speed_bound_amended (initState 0) ⟨0, Relation.ReflTransGen.refl⟩

/-! ### Claim C2 -/

/-- Claim C2, counterexample: the claim says holding an axis for N ticks
from base speed yields `min(baseSpeed * accelerationFactor ^ N, maxSpeed)`.
At N = 57 the actual forward speed is `2 * 1.025 ^ 57 > 8`, while the
claimed formula yields exactly 8. -/
theorem c2_counterexample :
    forwardHeldSpeed 57 ≠
      min (config.baseSpeed * config.acceleration ^ 57) config.maxSpeed := by
  rw [forwardHeldSpeed_closed]
  norm_num [config]

/-- Claim C2, amended: for every axis, holding the corresponding input for
N consecutive ticks from base speed yields
`baseSpeed * accelerationFactor ^ min(N, 57)` — geometric growth that
saturates at tick 57, the first tick whose result is at least `maxSpeed`
(at the overshoot value `2 * 1.025 ^ 57`, not at `maxSpeed`). A driven
tick with speed below `maxSpeed` multiplies by `accelerationFactor`
without clamping, and releasing the input yields exactly `baseSpeed` on
the next tick. -/
theorem c2_acceleration_amended :
    (∀ n, forwardHeldSpeed n = config.baseSpeed * config.acceleration ^ min n 57)
    ∧ (∀ n, strafeHeldSpeed n = config.baseSpeed * config.acceleration ^ min n 57)
    ∧ (∀ n, verticalHeldSpeed n = config.baseSpeed * config.acceleration ^ min n 57)
    ∧ (∀ s : ℚ, s < config.maxSpeed → accelerateAxis s = s * config.acceleration)
    ∧ (∀ p d sp s, (handleForwardMovement noInput p d sp s).2 = config.baseSpeed)
    ∧ (∀ p d sp s, (handleStrafeMovement noInput p d sp s).2 = config.baseSpeed)
    ∧ (∀ p sp s, (handleVerticalMovement noInput p sp s).2 = config.baseSpeed) := by
  refine ⟨?_, ?_, ?_, ?_, ?_, ?_, ?_⟩
  · intro n; rw [forwardHeldSpeed_closed]; norm_num [config]
  · intro n; rw [strafeHeldSpeed_closed]; norm_num [config]
  · intro n; rw [verticalHeldSpeed_closed]; norm_num [config]
  · intro s hs; simp [accelerateAxis, hs]
  · intro p d sp s; simp [handleForwardMovement, noInput]
  · intro p d sp s; simp [handleStrafeMovement, noInput]
  · intro p sp s; simp [handleVerticalMovement, noInput]

/-- Claim C2, witness: the amended statement instantiated at N = 1 and at
a concrete below-ceiling speed. -/
theorem c2_witness :
    forwardHeldSpeed 1 = config.baseSpeed * config.acceleration ^ min 1 57 ∧
      accelerateAxis 2 = 2 * config.acceleration :=
  ⟨c2_acceleration_amended.1 1,
   c2_acceleration_amended.2.2.2.1 2 (by norm_num [config])⟩

/-! ### Claim C3 -/

/-- Claim C3: for every starting state, if camera acquisition fails during
`enable()`, then after `enable()` returns `isActive` is false and no
freeze or collision-toggling call was issued to the target (the effect
trace is empty): the failure branch returns before any entity mutation. -/
theorem c3_camera_failure_aborts (w : World) (st : NoClipState)
    (h : w.cameraOk = false) :
    (enable w st).1.isActive = false ∧ (enable w st).2 = [] := by
  simp [enable, h]

/-- Claim C3, witness: the failing-camera enable from the constructor
state. -/
theorem c3_witness :
    (enable wFail (initState 0)).1.isActive = false ∧
      (enable wFail (initState 0)).2 = [] :=
  c3_camera_failure_aborts wFail (initState 0) rfl

/-! ### Claim C4 -/

/-- Claim C4, counterexample: the claim says a null resolved target is
treated like camera failure, leaving `isActive` false. It is false: with
a null target and a successful camera, `enable()` only skips the
freeze/collision block and never resets `isActive`, so the flag stays
true. -/
theorem c4_counterexample :
    wNull.cameraOk = true ∧ getTargetEntity wNull = none ∧
      (enable wNull stT).1.isActive = true :=
  ⟨rfl, rfl, rfl⟩

/-- Claim C4, amended: if the target resolver returns null while camera
acquisition succeeds, `enable()` leaves `isActive` unchanged (still true
when called from `toggle`), issues no entity calls, and leaves
`targetEntity` null — so the per-tick guard `shouldUpdate` can never
fire, but the activation flag does NOT report the failure. -/
theorem c4_null_target_amended (w : World) (st : NoClipState)
    (hc : w.cameraOk = true) (ht : getTargetEntity w = none) :
    (enable w st).1.isActive = st.isActive ∧ (enable w st).2 = [] ∧
      (enable w st).1.targetEntity = none ∧
      ∀ w2 : World, shouldUpdate w2 (enable w st).1 = false := by
  refine ⟨?_, ?_, ?_, ?_⟩ <;> simp [enable, hc, ht, shouldUpdate]

/-- Claim C4, witness: the amended statement at the null-player runtime. -/
theorem c4_witness :
    (enable wNull stT).1.isActive = stT.isActive ∧ (enable wNull stT).2 = [] ∧
      (enable wNull stT).1.targetEntity = none ∧
      ∀ w2 : World, shouldUpdate w2 (enable wNull stT).1 = false :=
  c4_null_target_amended wNull stT rfl rfl

/-! ### Claim C5 -/

/-- Claim C5, counterexample: the claim says the target reference is
present iff `isActive`, in every reachable state. It is false: a toggle-on
under a failing camera resets `isActive` to false but never clears
`targetEntity`, which `enable()` had already set to the resolved player. -/
theorem c5_counterexample :
    Reachable s5 ∧ s5.isActive = false ∧ s5.targetEntity = some Entity.player :=
  ⟨⟨0, Relation.ReflTransGen.single (Step.ofToggle wFail (initState 0))⟩, rfl, rfl⟩

theorem cameraInv_step {s s2 : NoClipState}
    (h : s.camera ≠ none → s.isActive = true) (hs : Step s s2) :
    s2.camera ≠ none → s2.isActive = true := by
  cases hs with
  | ofToggle w st =>
    cases ha : s.isActive
    · have he : (toggle w s).1 = (enable w { s with isActive := !s.isActive }).1 := by
        simp [toggle, ha]
      rw [he, enable_fst]
      cases hw : w.cameraOk <;> simp [hw, ha]
    · have he : (toggle w s).1 = (disable w { s with isActive := !s.isActive }).1 := by
        simp [toggle, ha]
      rw [he, disable_fst]
      intro hc
      exact absurd rfl hc
  | ofRender w inp st =>
    rw [renderTick_camera, renderTick_isActive]
    exact h
  | ofDestroy w st =>
    cases ha : s.isActive
    · have he : (destroy w s).1 = s := by simp [destroy, ha]
      rw [he]
      exact h
    · have he : (destroy w s).1 = (disable w s).1 := by simp [destroy, ha]
      rw [he, disable_fst]
      intro hc
      exact absurd rfl hc

/-- Claim C5, amended: in every reachable state, the camera handle is
present only when `isActive` is true; the target reference, however, does
not track the activation flag (a failed enable leaves it set while
inactive, see the counterexample). -/
theorem c5_camera_active_amended (s : NoClipState) (h : Reachable s)
    (hc : s.camera ≠ none) : s.isActive = true := by
  obtain ⟨t0, hr⟩ := h
  refine (?_ : s.camera ≠ none → s.isActive = true) hc
  clear hc
  induction hr with
  | refl =>
    intro hc
    exact absurd rfl hc
  | tail hab hbc ih => exact cameraInv_step ih hbc

/-- Claim C5, witness: the amended statement at the state after one
successful toggle-on. -/
theorem c5_witness : ((toggle baseW (initState 0)).1).isActive = true :=
  c5_camera_active_amended _
    ⟨0, Relation.ReflTransGen.single (Step.ofToggle baseW (initState 0))⟩
    (fun h => Option.noConfusion h)

/-! ### Claim C6 -/

/-- Claim C6, counterexample: the claim says two consecutive toggles
return `isActive` to its original value from every starting state. It is
false when the first toggle-on suffers a camera failure and the second
enable succeeds: starting inactive, after the two toggles the system is
active. -/
theorem c6_counterexample :
    (initState 0).isActive = false ∧
      ((toggle baseW (toggle wFail (initState 0)).1).1).isActive = true :=
  ⟨rfl, rfl⟩

/-- Claim C6, amended: provided camera acquisition succeeds during both
toggles, calling `toggle()` twice from any starting state returns
`isActive` to its original value and leaves all three axis speeds at
`baseSpeed` (the one `disable()` among the two calls performs the reset;
`enable()` never touches the speeds). -/
theorem c6_double_toggle_amended (st : NoClipState) (w1 w2 : World)
    (h1 : w1.cameraOk = true) (h2 : w2.cameraOk = true) :
    ((toggle w2 (toggle w1 st).1).1).isActive = st.isActive ∧
      ((toggle w2 (toggle w1 st).1).1).state.forward = config.baseSpeed ∧
      ((toggle w2 (toggle w1 st).1).1).state.strafe = config.baseSpeed ∧
      ((toggle w2 (toggle w1 st).1).1).state.vertical = config.baseSpeed := by
  cases ha : st.isActive <;>
    simp [toggle, ha, enable_fst, disable_fst, resetState, h1, h2]

/-- Claim C6, witness: the amended statement from the constructor state
under the benign runtime. -/
theorem c6_witness :
    ((toggle baseW (toggle baseW (initState 0)).1).1).isActive =
        (initState 0).isActive ∧
      ((toggle baseW (toggle baseW (initState 0)).1).1).state.forward =
        config.baseSpeed ∧
      ((toggle baseW (toggle baseW (initState 0)).1).1).state.strafe =
        config.baseSpeed ∧
      ((toggle baseW (toggle baseW (initState 0)).1).1).state.vertical =
        config.baseSpeed :=
  c6_double_toggle_amended (initState 0) baseW baseW rfl rfl

/-! ### Claim C7 -/

/-- Claim C7: whenever `disable()` runs with the bare player as target
(player not occupying a vehicle), the effect trace contains exactly one
ground-height query and exactly one position write, and that write keeps
the player's current x and y while placing z at the returned ground
height. The trace is, in order: unfreeze, collision restore, ground
query, ground placement. -/
theorem c7_bare_player_ground_snap (w : World) (st : NoClipState)
    (hv : isPlayerInVehicle w = false)
    (ht : st.targetEntity = some Entity.player)
    (hp : w.localPlayer = some Entity.player) :
    (disable w st).2 =
      [Effect.freezePosition Entity.player false,
       Effect.setCollision Entity.player true true,
       Effect.getGroundZ w.playerPos.x w.playerPos.y w.playerPos.z,
       Effect.setCoordsNoOffset Entity.player w.playerPos.x w.playerPos.y
         w.groundZ] ∧
      ((disable w st).2.countP (fun e => e.isGroundQuery)) = 1 ∧
      ((disable w st).2.countP (fun e => e.isPositionWrite)) = 1 := by
  have h2 : (disable w st).2 =
      [Effect.freezePosition Entity.player false,
       Effect.setCollision Entity.player true true,
       Effect.getGroundZ w.playerPos.x w.playerPos.y w.playerPos.z,
       Effect.setCoordsNoOffset Entity.player w.playerPos.x w.playerPos.y
         w.groundZ] := by
    simp [disable, ht, hv, hp, setEntityToGround]
  refine ⟨h2, ?_, ?_⟩ <;> rw [h2] <;>
    simp [List.countP_cons, Effect.isGroundQuery, Effect.isPositionWrite]

/-- Claim C7, witness: disabling the active on-foot session under the
benign runtime. -/
theorem c7_witness :
    (disable baseW stP).2 =
      [Effect.freezePosition Entity.player false,
       Effect.setCollision Entity.player true true,
       Effect.getGroundZ baseW.playerPos.x baseW.playerPos.y baseW.playerPos.z,
       Effect.setCoordsNoOffset Entity.player baseW.playerPos.x
         baseW.playerPos.y baseW.groundZ] ∧
      ((disable baseW stP).2.countP (fun e => e.isGroundQuery)) = 1 ∧
      ((disable baseW stP).2.countP (fun e => e.isPositionWrite)) = 1 :=
  c7_bare_player_ground_snap baseW stP rfl rfl rfl

/-! ### Claim C8 -/

/-- Claim C8: if the target recorded at enable-time is the vehicle and the
player still occupies a vehicle at disable-time, `disable()` unfreezes the
vehicle, restores both collision flags to enabled on the vehicle, and
performs no ground-height query and no ground-placement write. -/
theorem c8_vehicle_restore (w : World) (st : NoClipState)
    (hv : isPlayerInVehicle w = true)
    (ht : st.targetEntity = some Entity.vehicle) :
    (disable w st).2 =
      [Effect.freezePosition Entity.vehicle false,
       Effect.setCollision Entity.vehicle true true] ∧
      ((disable w st).2.countP (fun e => e.isGroundQuery)) = 0 ∧
      ((disable w st).2.countP (fun e => e.isPositionWrite)) = 0 := by
  have h2 : (disable w st).2 =
      [Effect.freezePosition Entity.vehicle false,
       Effect.setCollision Entity.vehicle true true] := by
    simp [disable, ht, hv]
  refine ⟨h2, ?_, ?_⟩ <;> rw [h2] <;>
    simp [List.countP_cons, Effect.isGroundQuery, Effect.isPositionWrite]

/-- Claim C8, witness: disabling the active in-vehicle session. -/
theorem c8_witness :
    (disable wVeh stV).2 =
      [Effect.freezePosition Entity.vehicle false,
       Effect.setCollision Entity.vehicle true true] ∧
      ((disable wVeh stV).2.countP (fun e => e.isGroundQuery)) = 0 ∧
      ((disable wVeh stV).2.countP (fun e => e.isPositionWrite)) = 0 :=
  c8_vehicle_restore wVeh stV rfl rfl

/-! ### Claim C9 -/

/-- Claim C9: on a tick where forward is newly held and the axis speed is
still `baseSpeed`, `accelerateAxis` runs before the displacement is
computed, so the entity moves by
`baseSpeed * accelerationFactor * speedMultiplier` along the camera
direction — and not by `baseSpeed * speedMultiplier`, the two being
different since `accelerationFactor > 1`. -/
theorem c9_accelerate_before_move (p d : Vec3) (sp : ℚ) :
    (handleForwardMovement holdForward p d sp config.baseSpeed).2 =
        config.baseSpeed * config.acceleration ∧
      (handleForwardMovement holdForward p d sp config.baseSpeed).1.x =
        p.x + d.x * (config.baseSpeed * config.acceleration * sp) ∧
      (handleForwardMovement holdForward p d sp config.baseSpeed).1.y =
        p.y + d.y * (config.baseSpeed * config.acceleration * sp) ∧
      (handleForwardMovement holdForward p d sp config.baseSpeed).1.z =
        p.z + d.z * (config.baseSpeed * config.acceleration * sp) ∧
      config.baseSpeed * config.acceleration ≠ config.baseSpeed := by
  have hb : accelerateAxis config.baseSpeed =
      config.baseSpeed * config.acceleration := by
    norm_num [accelerateAxis, config]
  refine ⟨?_, ?_, ?_, ?_, by norm_num [config]⟩ <;>
    simp [handleForwardMovement, holdForward, hb]

/-! ### Claim C10 -/

/-- Claim C10: calling `destroy()` while active runs exactly the
disable-time restoration (`destroy` equals `disable`: same entity effects,
movement state reset, camera and target cleared) yet leaves `isActive`
true, and a subsequent `toggle()` flips the flag to false and invokes
`disable()` a second time. -/
theorem c10_destroy_leaves_active (w w2 : World) (st : NoClipState)
    (h : st.isActive = true) :
    destroy w st = disable w st ∧
      (destroy w st).1.isActive = true ∧
      (destroy w st).1.camera = none ∧
      (destroy w st).1.targetEntity = none ∧
      (destroy w st).1.state.forward = config.baseSpeed ∧
      (destroy w st).1.state.strafe = config.baseSpeed ∧
      (destroy w st).1.state.vertical = config.baseSpeed ∧
      toggle w2 (destroy w st).1 =
        disable w2 { (destroy w st).1 with isActive := false } := by
  have hd : destroy w st = disable w st := by simp [destroy, h]
  refine ⟨hd, ?_, ?_, ?_, ?_, ?_, ?_, ?_⟩ <;>
    rw [hd, disable_fst] <;> simp [toggle, resetState, disable_fst, h]

/-- Claim C10, witness: destroying the active on-foot session. -/
theorem c10_witness :
    destroy baseW stP = disable baseW stP ∧
      (destroy baseW stP).1.isActive = true ∧
      (destroy baseW stP).1.camera = none ∧
      (destroy baseW stP).1.targetEntity = none ∧
      (destroy baseW stP).1.state.forward = config.baseSpeed ∧
      (destroy baseW stP).1.state.strafe = config.baseSpeed ∧
      (destroy baseW stP).1.state.vertical = config.baseSpeed ∧
      toggle baseW (destroy baseW stP).1 =
        disable baseW { (destroy baseW stP).1 with isActive := false } :=
  c10_destroy_leaves_active baseW baseW stP rfl

end NoClip
